import Mathlib

/-!
Verification of the Asset Identity Registry of `poliphaser.js`.

The source is a JavaScript wrapper over a 2D game engine; the one
self-contained algorithm is `cyrb53`, a 53-bit string hash used to
deduplicate asset loads by path, together with the module-level registry
`PP.assets.list_images_id` consulted and extended by
`PP.assets.image.load` and `PP.assets.sprite.load_spritesheet`.

Modelling conventions:
* JavaScript 32-bit integer operations are modelled on `Nat` in the
  unsigned representation: `Math.imul a b` is `(a * b) % 2^32`, `x >>> k`
  is `Nat.shiftRight` (the operands stay below `2^32` throughout), and
  `&`, `^` are `Nat.land` / `Nat.xor` on those representatives.
* A JavaScript string is its sequence of UTF-16 code units, `List Nat`;
  `charCodeAt` always returns a value below `2^16`, which the model makes
  total by reducing each code unit mod `2^16`.
* The `seed` parameter is XORed after `ToInt32` conversion; on the
  unsigned representatives this is reduction mod `2^32`.
* The module-level mutable state (`PP.assets.list_images_id`, the
  `console.warn` calls, and the engine loader invocations
  `scene.load.image` / `scene.load.spritesheet`) is made explicit in a
  `JSWorld` record threaded through the load functions.
* A thrown `PP.debug.assert` error is an `Except.error` carrying the
  assertion message and the world as it stood when the throw happened.
-/

namespace Poliphaser

/-- A JavaScript string, as its sequence of UTF-16 code units. -/
abbrev JSStr := List Nat

/-- Reduction to an unsigned 32-bit representative. -/
def u32 (n : Nat) : Nat := n % 4294967296

/-- Reduction to a UTF-16 code unit, the range of `charCodeAt`. -/
def u16 (n : Nat) : Nat := n % 65536

/-- JavaScript `Math.imul` on unsigned 32-bit representatives. -/
def imul (a b : Nat) : Nat := (a * b) % 4294967296

/-- The per-character loop of `cyrb53` (source lines 9–13): each code unit
is XORed into each lane, which is then multiplied (32-bit) by a fixed odd
constant. -/
def cyrb53Loop : JSStr → Nat → Nat → Nat × Nat
  | [], h1, h2 => (h1, h2)
  | ch :: rest, h1, h2 =>
      cyrb53Loop rest (imul (h1 ^^^ u16 ch) 2654435761)
                      (imul (h2 ^^^ u16 ch) 1597334677)

/-- The numeric value computed by `cyrb53` before `.toString()`
(source lines 7–19): seed-XORed initial lanes, the per-character loop,
two rounds of XOR-shift-multiply cross-mixing, and the 21+32 bit
combination. -/
def cyrb53Val (str : JSStr) (seed : Nat) : Nat :=
  let p := cyrb53Loop str (0xdeadbeef ^^^ u32 seed) (0x41c6ce57 ^^^ u32 seed)
  let h1 := imul (p.1 ^^^ (p.1 >>> 16)) 2246822507 ^^^
            imul (p.2 ^^^ (p.2 >>> 13)) 3266489909
  let h2 := imul (p.2 ^^^ (p.2 >>> 16)) 2246822507 ^^^
            imul (h1 ^^^ (h1 >>> 13)) 3266489909
  4294967296 * (h2 &&& 2097151) + h1

/-- `cyrb53` (source lines 7–20): the decimal string form of the hash
value.  This is the operation the specification calls `computeId`. -/
def cyrb53 (str : JSStr) (seed : Nat := 0) : String :=
  toString (cyrb53Val str seed)

/-- The hash algorithm as §4.1 of the specification words it: two 32-bit
accumulators initialized to fixed constants XORed with the seed, advanced
per character by XOR with the character code then 32-bit multiplication by
a fixed odd constant (a left fold), finalized by two rounds of
XOR-shift-multiply cross-mixing between the lanes, combined as
(low 21 bits of the second lane) as high bits over the full unsigned
32-bit first lane, and returned in decimal string form.  Written with
modular arithmetic (`% 2^32`, `/ 2^k` for shifts, `% 2^21` for the low
bits) to be compared against the source-derived `cyrb53`. -/
def specComputeId (str : JSStr) (seed : Nat) : String :=
  let st := str.foldl (fun p c =>
      (((p.1 ^^^ (c % 65536)) * 2654435761) % 4294967296,
       ((p.2 ^^^ (c % 65536)) * 1597334677) % 4294967296))
    (3735928559 ^^^ (seed % 4294967296), 1103547991 ^^^ (seed % 4294967296))
  let lane1 := (((st.1 ^^^ (st.1 / 65536)) * 2246822507) % 4294967296) ^^^
               (((st.2 ^^^ (st.2 / 8192)) * 3266489909) % 4294967296)
  let lane2 := (((st.2 ^^^ (st.2 / 65536)) * 2246822507) % 4294967296) ^^^
               (((lane1 ^^^ (lane1 / 8192)) * 3266489909) % 4294967296)
  toString ((lane2 % 2097152) * 4294967296 + lane1)

/-- A JavaScript value, as far as the `typeof`-based assertions of the
source distinguish them. -/
inductive JSValue where
  | vstr (s : JSStr)
  | vnum (n : Int)
  | vobj
  | vfun
  | vundef
  | vbool (b : Bool)
  deriving DecidableEq

/-- JavaScript `typeof`. -/
def typeof : JSValue → String
  | .vstr _ => "string"
  | .vnum _ => "number"
  | .vobj => "object"
  | .vfun => "function"
  | .vundef => "undefined"
  | .vbool _ => "boolean"

/-- The `type` tag of the handle objects returned by the load functions. -/
inductive AssetType where
  | image
  | sprite
  deriving DecidableEq

/-- The handle object `{id, type}` returned to the caller. -/
structure Handle where
  id : String
  type : AssetType
  deriving DecidableEq

/-- A recorded invocation of the engine loader: `scene.load.image` or
`scene.load.spritesheet` with its key, path, and frame metadata. -/
inductive EngineLoad where
  | image (key : String) (path : JSStr)
  | spritesheet (key : String) (path : JSStr)
      (frame_width frame_height start_frame end_frame : Int)
  deriving DecidableEq

/-- The module-level mutable state the load functions touch, made
explicit: the registry `PP.assets.list_images_id`, the number of
`console.warn` calls, and the engine-loader invocations issued so far. -/
structure JSWorld where
  list_images_id : List String
  warnings : Nat
  engineLoads : List EngineLoad
  deriving DecidableEq

/-- The state at process start: `PP.assets = { list_images_id : [] }`,
nothing warned, nothing loaded. -/
def initialWorld : JSWorld :=
  { list_images_id := [], warnings := 0, engineLoads := [] }

/-- Result of a call into the wrapper: either a value together with the
world it leaves behind, or a thrown `PP.debug.assert` error carrying the
message and the world as it stood at the throw. -/
abbrev JSResult (α : Type) := Except (String × JSWorld) α

/-- `PP.assets.image.load` (source lines 254–269): assert the argument
types, hash the path with `cyrb53`, and either warn on a duplicate or
push the id and issue `scene.load.image`; both branches return
`{id: url_hash, type: "image"}`. -/
def PP.assets.image.load (w : JSWorld) (scene image_path : JSValue) :
    JSResult (JSWorld × Handle) :=
  if typeof scene = "object" then
    match image_path with
    | .vstr p =>
        let url_hash := cyrb53 p
        if w.list_images_id.contains url_hash then
          .ok ({ w with warnings := w.warnings + 1 },
               { id := url_hash, type := .image })
        else
          .ok ({ w with
                  list_images_id := w.list_images_id ++ [url_hash],
                  engineLoads := w.engineLoads ++ [.image url_hash p] },
               { id := url_hash, type := .image })
    | _ =>
        .error ("Assertion failed: Parameter error: image_path should be a string.", w)
  else
    .error ("Assertion failed: Parameter error: scene should be a scene object.", w)

/-- `PP.assets.sprite.load_spritesheet` (source lines 313–332): assert the
argument types, hash the path with `cyrb53`, and either warn on a
duplicate or push the id and issue `scene.load.spritesheet`; both
branches return `{id: url_hash, type: "sprite"}`. -/
def PP.assets.sprite.load_spritesheet (w : JSWorld)
    (scene image_path frame_width frame_height start_frame end_frame : JSValue) :
    JSResult (JSWorld × Handle) :=
  if typeof scene = "object" then
    match image_path with
    | .vstr p =>
        match frame_width with
        | .vnum fw =>
            match frame_height with
            | .vnum fh =>
                match start_frame with
                | .vnum sf =>
                    match end_frame with
                    | .vnum ef =>
                        let url_hash := cyrb53 p
                        if w.list_images_id.contains url_hash then
                          .ok ({ w with warnings := w.warnings + 1 },
                               { id := url_hash, type := .sprite })
                        else
                          .ok ({ w with
                                  list_images_id := w.list_images_id ++ [url_hash],
                                  engineLoads := w.engineLoads ++
                                    [.spritesheet url_hash p fw fh sf ef] },
                               { id := url_hash, type := .sprite })
                    | _ =>
                        .error ("Assertion failed: Parameter error: end_frame should be a number.", w)
                | _ =>
                    .error ("Assertion failed: Parameter error: start_frame should be a number.", w)
            | _ =>
                .error ("Assertion failed: Parameter error: frame_height should be a number.", w)
        | _ =>
            .error ("Assertion failed: Parameter error: frame_width should be a number.", w)
    | _ =>
        .error ("Assertion failed: Parameter error: image_path should be a string.", w)
  else
    .error ("Assertion failed: Parameter error: scene should be a scene object.", w)

/-- The registry left behind by a call: the returned world's on success,
the world at the throw on an assertion error. -/
def registryAfter : JSResult (JSWorld × Handle) → List String
  | .ok (w, _) => w.list_images_id
  | .error (_, w) => w.list_images_id

/-- The engine-loader invocations issued by the end of a call. -/
def engineLoadsAfter : JSResult (JSWorld × Handle) → List EngineLoad
  | .ok (w, _) => w.engineLoads
  | .error (_, w) => w.engineLoads

/-- Propositional equality of call results is decidable componentwise. -/
instance {e a : Type} [DecidableEq e] [DecidableEq a] : DecidableEq (Except e a) :=
  fun x y =>
    match x, y with
    | .ok v, .ok w =>
        if h : v = w then .isTrue (congrArg Except.ok h)
        else .isFalse (fun hh => h (Except.ok.inj hh))
    | .error v, .error w =>
        if h : v = w then .isTrue (congrArg Except.error h)
        else .isFalse (fun hh => h (Except.error.inj hh))
    | .ok _, .error _ => .isFalse (fun hh => Except.noConfusion hh)
    | .error _, .ok _ => .isFalse (fun hh => Except.noConfusion hh)

/-- `imul` lands strictly below `2^32`. -/
theorem imul_lt (a b : Nat) : imul a b < 4294967296 :=
  Nat.mod_lt _ (by norm_num)

/-- The first finalized lane of `cyrb53Val` is strictly below `2^32`. -/
theorem lane_xor_lt (a b c d : Nat) :
    imul a b ^^^ imul c d < 4294967296 := by
  have h : (4294967296 : Nat) = 2 ^ 32 := by norm_num
  rw [h]
  exact Nat.xor_lt_two_pow (h ▸ imul_lt a b) (h ▸ imul_lt c d)

/-- The 21+32 bit combination is bounded by `2^53 - 1` whenever its low
part is an XOR of two `imul` results. -/
theorem comb_le (x a b c d : Nat) :
    4294967296 * (x &&& 2097151) + (imul a b ^^^ imul c d) ≤ 9007199254740991 := by
  have hx : x &&& 2097151 ≤ 2097151 := Nat.and_le_right
  have hy := lane_xor_lt a b c d
  omega

/-- The hash value always fits in 53 bits. -/
theorem cyrb53Val_le (str : JSStr) (seed : Nat) :
    cyrb53Val str seed ≤ 9007199254740991 := by
  unfold cyrb53Val
  exact comb_le _ _ _ _ _

/-- The per-character loop is the left fold of the specification's step. -/
theorem cyrb53Loop_eq_foldl (str : JSStr) (a b : Nat) :
    cyrb53Loop str a b =
      str.foldl (fun p c =>
        (((p.1 ^^^ (c % 65536)) * 2654435761) % 4294967296,
         ((p.2 ^^^ (c % 65536)) * 1597334677) % 4294967296)) (a, b) := by
  induction str generalizing a b with
  | nil => rfl
  | cons ch rest ih =>
      simp only [cyrb53Loop, List.foldl_cons, ih, imul, u16]

/-- A right shift by 16 on the unsigned representative is division by `2^16`. -/
theorem shiftR16 (x : Nat) : x >>> 16 = x / 65536 := by
  rw [Nat.shiftRight_eq_div_pow]

/-- A right shift by 13 on the unsigned representative is division by `2^13`. -/
theorem shiftR13 (x : Nat) : x >>> 13 = x / 8192 := by
  rw [Nat.shiftRight_eq_div_pow]

/-- The 21-bit mask is reduction mod `2^21`. -/
theorem mask21 (x : Nat) : x &&& 2097151 = x % 2097152 := by
  have h : (2097151 : Nat) = 2 ^ 21 - 1 := by norm_num
  have h2 : (2097152 : Nat) = 2 ^ 21 := by norm_num
  rw [h, h2, Nat.and_pow_two_sub_one_eq_mod]

/-- C1: `computeId` (the `cyrb53` hash) implements exactly the algorithm the
specification describes: for every string and seed, the source-derived
`cyrb53` agrees with `specComputeId`, the definition transcribed from the
specification's wording — seed-XORed fixed initial lanes, per-character
XOR-then-multiply advances, two rounds of XOR-shift-multiply cross-mixing,
and the (low 21 bits of lane 2) `* 2^32` + (unsigned 32-bit lane 1)
combination rendered as a decimal string. -/
theorem cyrb53_implements_spec_algorithm (str : JSStr) (seed : Nat) :
    cyrb53 str seed = specComputeId str seed := by
  unfold cyrb53 cyrb53Val specComputeId
  rw [cyrb53Loop_eq_foldl]
  simp only [imul, u32, shiftR16, shiftR13, mask21]
  congr 1
  ring

/-- C2: for every input string and seed, the value `computeId` returns is
the decimal representation (`toString`) of a non-negative integer that is
at most 9007199254740991, i.e. it fits exactly in 53 bits. -/
theorem cyrb53_output_fits_53_bits (str : JSStr) (seed : Nat) :
    ∃ n : Nat, n ≤ 9007199254740991 ∧ cyrb53 str seed = toString n :=
  ⟨cyrb53Val str seed, cyrb53Val_le str seed, rfl⟩

/-- C4: `computeId` is deterministic — it is a pure function of
`(path, seed)`: any two evaluations on the same pair return the same
value, and equal inputs give equal outputs; the model takes no other
state. -/
theorem cyrb53_deterministic :
    (∀ (p : JSStr) (s : Nat), cyrb53 p s = cyrb53 p s) ∧
    (∀ (p1 p2 : JSStr) (s1 s2 : Nat), p1 = p2 → s1 = s2 →
      cyrb53 p1 s1 = cyrb53 p2 s2) :=
  ⟨fun _ _ => rfl, fun _ _ _ _ h1 h2 => by rw [h1, h2]⟩

/-- Witness for C4 at the concrete input `([], 0)`. -/
theorem cyrb53_deterministic_witness :
    ([] : JSStr) = ([] : JSStr) ∧ (0 : Nat) = 0 ∧ cyrb53 [] 0 = cyrb53 [] 0 :=
  ⟨rfl, rfl, cyrb53_deterministic.2 [] [] 0 0 rfl rfl⟩

/-- C8: the seed influences the hash — there are a path and two distinct
seeds with different outputs (both lane initializations incorporate the
seed by XOR) — but inequality is not guaranteed for all inputs: two
distinct seeds agreeing mod `2^32` collide. -/
theorem cyrb53_seed_sensitivity :
    (∃ (p : JSStr) (s1 s2 : Nat), s1 ≠ s2 ∧ cyrb53 p s1 ≠ cyrb53 p s2) ∧
    (∃ (p : JSStr) (s1 s2 : Nat), s1 ≠ s2 ∧ cyrb53 p s1 = cyrb53 p s2) :=
  ⟨⟨[], 0, 1, by decide, by decide⟩, ⟨[], 0, 4294967296, by decide, by decide⟩⟩

/-- `image.load` on a path whose hash is not yet registered: push the id,
issue the engine load, return the image handle. -/
theorem image_load_fresh (w : JSWorld) (p : JSStr)
    (h : cyrb53 p ∉ w.list_images_id) :
    PP.assets.image.load w .vobj (.vstr p) =
      .ok ({ w with
              list_images_id := w.list_images_id ++ [cyrb53 p],
              engineLoads := w.engineLoads ++ [.image (cyrb53 p) p] },
           { id := cyrb53 p, type := .image }) := by
  simp [PP.assets.image.load, typeof, h]

/-- `image.load` on an already-registered hash: warn, change nothing else,
return the image handle. -/
theorem image_load_dup (w : JSWorld) (p : JSStr)
    (h : cyrb53 p ∈ w.list_images_id) :
    PP.assets.image.load w .vobj (.vstr p) =
      .ok ({ w with warnings := w.warnings + 1 },
           { id := cyrb53 p, type := .image }) := by
  simp [PP.assets.image.load, typeof, h]

/-- `sprite.load_spritesheet` on a path whose hash is not yet registered:
push the id, issue the engine load, return the sprite handle. -/
theorem sprite_load_fresh (w : JSWorld) (p : JSStr) (fw fh sf ef : Int)
    (h : cyrb53 p ∉ w.list_images_id) :
    PP.assets.sprite.load_spritesheet w .vobj (.vstr p)
        (.vnum fw) (.vnum fh) (.vnum sf) (.vnum ef) =
      .ok ({ w with
              list_images_id := w.list_images_id ++ [cyrb53 p],
              engineLoads := w.engineLoads ++ [.spritesheet (cyrb53 p) p fw fh sf ef] },
           { id := cyrb53 p, type := .sprite }) := by
  simp [PP.assets.sprite.load_spritesheet, typeof, h]

/-- `sprite.load_spritesheet` on an already-registered hash: warn, change
nothing else, return the sprite handle. -/
theorem sprite_load_dup (w : JSWorld) (p : JSStr) (fw fh sf ef : Int)
    (h : cyrb53 p ∈ w.list_images_id) :
    PP.assets.sprite.load_spritesheet w .vobj (.vstr p)
        (.vnum fw) (.vnum fh) (.vnum sf) (.vnum ef) =
      .ok ({ w with warnings := w.warnings + 1 },
           { id := cyrb53 p, type := .sprite }) := by
  simp [PP.assets.sprite.load_spritesheet, typeof, h]

/-- C3: registering the same path twice, through either entry point: the
first call (hash not yet registered) computes the id with
`cyrb53(path, 0)`, appends it to the registry, issues exactly one engine
load, and warns nothing; the second call returns the same id, re-issues
no engine load, and only increments the warning count — it is an `.ok`
result, not a thrown error. -/
theorem register_twice_same_path (w : JSWorld) (p : JSStr) (fw fh sf ef : Int)
    (h : cyrb53 p ∉ w.list_images_id) :
    (PP.assets.image.load w .vobj (.vstr p) =
        .ok ({ w with
                list_images_id := w.list_images_id ++ [cyrb53 p],
                engineLoads := w.engineLoads ++ [.image (cyrb53 p) p] },
             { id := cyrb53 p, type := .image }) ∧
      PP.assets.image.load
          { w with
              list_images_id := w.list_images_id ++ [cyrb53 p],
              engineLoads := w.engineLoads ++ [.image (cyrb53 p) p] }
          .vobj (.vstr p) =
        .ok ({ w with
                list_images_id := w.list_images_id ++ [cyrb53 p],
                engineLoads := w.engineLoads ++ [.image (cyrb53 p) p],
                warnings := w.warnings + 1 },
             { id := cyrb53 p, type := .image })) ∧
    (PP.assets.sprite.load_spritesheet w .vobj (.vstr p)
          (.vnum fw) (.vnum fh) (.vnum sf) (.vnum ef) =
        .ok ({ w with
                list_images_id := w.list_images_id ++ [cyrb53 p],
                engineLoads := w.engineLoads ++ [.spritesheet (cyrb53 p) p fw fh sf ef] },
             { id := cyrb53 p, type := .sprite }) ∧
      PP.assets.sprite.load_spritesheet
          { w with
              list_images_id := w.list_images_id ++ [cyrb53 p],
              engineLoads := w.engineLoads ++ [.spritesheet (cyrb53 p) p fw fh sf ef] }
          .vobj (.vstr p) (.vnum fw) (.vnum fh) (.vnum sf) (.vnum ef) =
        .ok ({ w with
                list_images_id := w.list_images_id ++ [cyrb53 p],
                engineLoads := w.engineLoads ++ [.spritesheet (cyrb53 p) p fw fh sf ef],
                warnings := w.warnings + 1 },
             { id := cyrb53 p, type := .sprite })) := by
  refine ⟨⟨image_load_fresh w p h, ?_⟩, sprite_load_fresh w p fw fh sf ef h, ?_⟩
  · exact image_load_dup _ p (by simp)
  · exact sprite_load_dup _ p fw fh sf ef (by simp)

/-- Witness for C3 at path `"h"` (code unit 104) from the initial world. -/
theorem register_twice_same_path_witness :
    cyrb53 [104] ∉ initialWorld.list_images_id ∧
    ((PP.assets.image.load initialWorld .vobj (.vstr [104]) =
        .ok ({ initialWorld with
                list_images_id := initialWorld.list_images_id ++ [cyrb53 [104]],
                engineLoads := initialWorld.engineLoads ++ [.image (cyrb53 [104]) [104]] },
             { id := cyrb53 [104], type := .image }) ∧
      PP.assets.image.load
          { initialWorld with
              list_images_id := initialWorld.list_images_id ++ [cyrb53 [104]],
              engineLoads := initialWorld.engineLoads ++ [.image (cyrb53 [104]) [104]] }
          .vobj (.vstr [104]) =
        .ok ({ initialWorld with
                list_images_id := initialWorld.list_images_id ++ [cyrb53 [104]],
                engineLoads := initialWorld.engineLoads ++ [.image (cyrb53 [104]) [104]],
                warnings := initialWorld.warnings + 1 },
             { id := cyrb53 [104], type := .image })) ∧
    (PP.assets.sprite.load_spritesheet initialWorld .vobj (.vstr [104])
          (.vnum 2) (.vnum 3) (.vnum 0) (.vnum 5) =
        .ok ({ initialWorld with
                list_images_id := initialWorld.list_images_id ++ [cyrb53 [104]],
                engineLoads := initialWorld.engineLoads ++
                  [.spritesheet (cyrb53 [104]) [104] 2 3 0 5] },
             { id := cyrb53 [104], type := .sprite }) ∧
      PP.assets.sprite.load_spritesheet
          { initialWorld with
              list_images_id := initialWorld.list_images_id ++ [cyrb53 [104]],
              engineLoads := initialWorld.engineLoads ++
                [.spritesheet (cyrb53 [104]) [104] 2 3 0 5] }
          .vobj (.vstr [104]) (.vnum 2) (.vnum 3) (.vnum 0) (.vnum 5) =
        .ok ({ initialWorld with
                list_images_id := initialWorld.list_images_id ++ [cyrb53 [104]],
                engineLoads := initialWorld.engineLoads ++
                  [.spritesheet (cyrb53 [104]) [104] 2 3 0 5],
                warnings := initialWorld.warnings + 1 },
             { id := cyrb53 [104], type := .sprite }))) :=
  ⟨by simp [initialWorld],
   register_twice_same_path initialWorld [104] 2 3 0 5 (by simp [initialWorld])⟩

/-- C9: image loads and spritesheet loads share one registry — after a
successful `image.load` on path `p`, a `sprite.load_spritesheet` on the
same `p` is treated as a duplicate: it only warns (no engine load, no
registry change), and the handle it returns carries the same id but the
`"sprite"` tag of the current call, not the `"image"` tag under which the
path was registered. -/
theorem spritesheet_shares_registry_with_image (w : JSWorld) (p : JSStr)
    (fw fh sf ef : Int) (h : cyrb53 p ∉ w.list_images_id) :
    PP.assets.image.load w .vobj (.vstr p) =
      .ok ({ w with
              list_images_id := w.list_images_id ++ [cyrb53 p],
              engineLoads := w.engineLoads ++ [.image (cyrb53 p) p] },
           { id := cyrb53 p, type := .image }) ∧
    PP.assets.sprite.load_spritesheet
        { w with
            list_images_id := w.list_images_id ++ [cyrb53 p],
            engineLoads := w.engineLoads ++ [.image (cyrb53 p) p] }
        .vobj (.vstr p) (.vnum fw) (.vnum fh) (.vnum sf) (.vnum ef) =
      .ok ({ w with
              list_images_id := w.list_images_id ++ [cyrb53 p],
              engineLoads := w.engineLoads ++ [.image (cyrb53 p) p],
              warnings := w.warnings + 1 },
           { id := cyrb53 p, type := .sprite }) :=
  ⟨image_load_fresh w p h, sprite_load_dup _ p fw fh sf ef (by simp)⟩

/-- Witness for C9 at path `"h"` (code unit 104) from the initial world. -/
theorem spritesheet_shares_registry_with_image_witness :
    cyrb53 [104] ∉ initialWorld.list_images_id ∧
    (PP.assets.image.load initialWorld .vobj (.vstr [104]) =
      .ok ({ initialWorld with
              list_images_id := initialWorld.list_images_id ++ [cyrb53 [104]],
              engineLoads := initialWorld.engineLoads ++ [.image (cyrb53 [104]) [104]] },
           { id := cyrb53 [104], type := .image }) ∧
    PP.assets.sprite.load_spritesheet
        { initialWorld with
            list_images_id := initialWorld.list_images_id ++ [cyrb53 [104]],
            engineLoads := initialWorld.engineLoads ++ [.image (cyrb53 [104]) [104]] }
        .vobj (.vstr [104]) (.vnum 2) (.vnum 3) (.vnum 0) (.vnum 5) =
      .ok ({ initialWorld with
              list_images_id := initialWorld.list_images_id ++ [cyrb53 [104]],
              engineLoads := initialWorld.engineLoads ++ [.image (cyrb53 [104]) [104]],
              warnings := initialWorld.warnings + 1 },
           { id := cyrb53 [104], type := .sprite })) :=
  ⟨by simp [initialWorld],
   spritesheet_shares_registry_with_image initialWorld [104] 2 3 0 5
     (by simp [initialWorld])⟩

/-- Every `image.load` call leaves the registry unchanged or appends
exactly one id. -/
theorem image_load_registry_shape (w : JSWorld) (scene path : JSValue) :
    registryAfter (PP.assets.image.load w scene path) = w.list_images_id ∨
    ∃ i, registryAfter (PP.assets.image.load w scene path) =
      w.list_images_id ++ [i] := by
  by_cases hs : typeof scene = "object"
  · cases path with
    | vstr p =>
        by_cases hc : cyrb53 p ∈ w.list_images_id
        · left; simp [PP.assets.image.load, hs, hc, registryAfter]
        · right
          exact ⟨cyrb53 p, by simp [PP.assets.image.load, hs, hc, registryAfter]⟩
    | vnum n => left; simp [PP.assets.image.load, hs, registryAfter]
    | vobj => left; simp [PP.assets.image.load, hs, registryAfter]
    | vfun => left; simp [PP.assets.image.load, hs, registryAfter]
    | vundef => left; simp [PP.assets.image.load, hs, registryAfter]
    | vbool b => left; simp [PP.assets.image.load, hs, registryAfter]
  · left; simp [PP.assets.image.load, hs, registryAfter]

/-- Every `sprite.load_spritesheet` call leaves the registry unchanged or
appends exactly one id. -/
theorem sprite_load_registry_shape (w : JSWorld)
    (scene path fw fh sf ef : JSValue) :
    registryAfter
        (PP.assets.sprite.load_spritesheet w scene path fw fh sf ef) =
      w.list_images_id ∨
    ∃ i, registryAfter
        (PP.assets.sprite.load_spritesheet w scene path fw fh sf ef) =
      w.list_images_id ++ [i] := by
  by_cases hs : typeof scene = "object"
  · cases path <;>
      try (left; simp [PP.assets.sprite.load_spritesheet, hs, registryAfter]; done)
    next p =>
    cases fw <;>
      try (left; simp [PP.assets.sprite.load_spritesheet, hs, registryAfter]; done)
    next a =>
    cases fh <;>
      try (left; simp [PP.assets.sprite.load_spritesheet, hs, registryAfter]; done)
    next b =>
    cases sf <;>
      try (left; simp [PP.assets.sprite.load_spritesheet, hs, registryAfter]; done)
    next c =>
    cases ef <;>
      try (left; simp [PP.assets.sprite.load_spritesheet, hs, registryAfter]; done)
    next d =>
    by_cases hc : cyrb53 p ∈ w.list_images_id
    · left; simp [PP.assets.sprite.load_spritesheet, hs, hc, registryAfter]
    · right
      exact ⟨cyrb53 p,
        by simp [PP.assets.sprite.load_spritesheet, hs, hc, registryAfter]⟩
  · left; simp [PP.assets.sprite.load_spritesheet, hs, registryAfter]

/-- C5: the registry grows monotonically — it starts empty; each of the
two operations that touch it either leaves it unchanged or appends one
id; and no operation removes an id: any id present before a call is still
present after it (absent → present is the only transition). -/
theorem registry_monotone :
    initialWorld.list_images_id = [] ∧
    (∀ (w : JSWorld) (scene path : JSValue),
      registryAfter (PP.assets.image.load w scene path) = w.list_images_id ∨
      ∃ i, registryAfter (PP.assets.image.load w scene path) =
        w.list_images_id ++ [i]) ∧
    (∀ (w : JSWorld) (scene path fw fh sf ef : JSValue),
      registryAfter
          (PP.assets.sprite.load_spritesheet w scene path fw fh sf ef) =
        w.list_images_id ∨
      ∃ i, registryAfter
          (PP.assets.sprite.load_spritesheet w scene path fw fh sf ef) =
        w.list_images_id ++ [i]) ∧
    (∀ (w : JSWorld) (scene path : JSValue) (i : String),
      i ∈ w.list_images_id →
      i ∈ registryAfter (PP.assets.image.load w scene path)) ∧
    (∀ (w : JSWorld) (scene path fw fh sf ef : JSValue) (i : String),
      i ∈ w.list_images_id →
      i ∈ registryAfter
        (PP.assets.sprite.load_spritesheet w scene path fw fh sf ef)) := by
  refine ⟨rfl, image_load_registry_shape, sprite_load_registry_shape, ?_, ?_⟩
  · intro w scene path i hi
    rcases image_load_registry_shape w scene path with heq | ⟨j, heq⟩ <;> rw [heq]
    · exact hi
    · exact List.mem_append_left _ hi
  · intro w scene path fw fh sf ef i hi
    rcases sprite_load_registry_shape w scene path fw fh sf ef with heq | ⟨j, heq⟩ <;>
      rw [heq]
    · exact hi
    · exact List.mem_append_left _ hi

/-- Witness for C5: an id already present survives an `image.load` and a
`sprite.load_spritesheet` call at concrete inputs. -/
theorem registry_monotone_witness :
    "a" ∈ (⟨["a"], 0, []⟩ : JSWorld).list_images_id ∧
    "a" ∈ registryAfter
      (PP.assets.image.load ⟨["a"], 0, []⟩ .vobj (.vstr [104])) ∧
    "a" ∈ registryAfter
      (PP.assets.sprite.load_spritesheet ⟨["a"], 0, []⟩ .vobj (.vstr [104])
        (.vnum 2) (.vnum 3) (.vnum 0) (.vnum 5)) :=
  ⟨by simp,
   registry_monotone.2.2.2.1 ⟨["a"], 0, []⟩ .vobj (.vstr [104]) "a" (by simp),
   registry_monotone.2.2.2.2 ⟨["a"], 0, []⟩ .vobj (.vstr [104])
     (.vnum 2) (.vnum 3) (.vnum 0) (.vnum 5) "a" (by simp)⟩

/-- `image.load` with a scene failing the `typeof` object assertion
throws, with the world untouched. -/
theorem image_load_bad_scene (w : JSWorld) (scene path : JSValue)
    (hs : typeof scene ≠ "object") :
    PP.assets.image.load w scene path =
      .error ("Assertion failed: Parameter error: scene should be a scene object.", w) := by
  simp [PP.assets.image.load, hs]

/-- `image.load` with a non-string path throws, with the world
untouched. -/
theorem image_load_bad_path (w : JSWorld) (scene path : JSValue)
    (hs : typeof scene = "object") (hp : typeof path ≠ "string") :
    PP.assets.image.load w scene path =
      .error ("Assertion failed: Parameter error: image_path should be a string.", w) := by
  cases path <;> first
    | exact absurd rfl hp
    | simp [PP.assets.image.load, hs]

/-- C6: calling `image.load` with a non-object scene or a non-string path
fails immediately and fatally: it throws an assertion error before any
effect, so the registry and the engine-load list are exactly those of the
world before the call. -/
theorem load_rejects_bad_arguments (w : JSWorld) (scene image_path : JSValue)
    (h : typeof scene ≠ "object" ∨ typeof image_path ≠ "string") :
    ∃ msg,
      PP.assets.image.load w scene image_path = .error (msg, w) ∧
      registryAfter (PP.assets.image.load w scene image_path) =
        w.list_images_id ∧
      engineLoadsAfter (PP.assets.image.load w scene image_path) =
        w.engineLoads := by
  by_cases hs : typeof scene = "object"
  · rcases h with hscene | hpath
    · exact absurd hs hscene
    · refine ⟨"Assertion failed: Parameter error: image_path should be a string.", ?_, ?_, ?_⟩
      · exact image_load_bad_path w scene image_path hs hpath
      · rw [image_load_bad_path w scene image_path hs hpath]; rfl
      · rw [image_load_bad_path w scene image_path hs hpath]; rfl
  · refine ⟨"Assertion failed: Parameter error: scene should be a scene object.", ?_, ?_, ?_⟩
    · exact image_load_bad_scene w scene image_path hs
    · rw [image_load_bad_scene w scene image_path hs]; rfl
    · rw [image_load_bad_scene w scene image_path hs]; rfl

/-- Witness for C6: a numeric path is rejected with the initial world
untouched. -/
theorem load_rejects_bad_arguments_witness :
    (typeof .vobj ≠ "object" ∨ typeof (.vnum 7) ≠ "string") ∧
    ∃ msg,
      PP.assets.image.load initialWorld .vobj (.vnum 7) =
        .error (msg, initialWorld) ∧
      registryAfter (PP.assets.image.load initialWorld .vobj (.vnum 7)) =
        initialWorld.list_images_id ∧
      engineLoadsAfter (PP.assets.image.load initialWorld .vobj (.vnum 7)) =
        initialWorld.engineLoads :=
  ⟨Or.inr (by decide),
   load_rejects_bad_arguments initialWorld .vobj (.vnum 7) (Or.inr (by decide))⟩

/-- Counterexample to C7 at a concrete input: the distinct 6-character
paths `"a9cmwf"` and `"bomwdd"` have the same `cyrb53` hash, so
registering the second after the first returns the SAME id, appends
nothing, issues no engine load, and warns — it is not marked new. -/
theorem distinct_paths_may_collide :
    ([97, 57, 99, 109, 119, 102] : JSStr) ≠ [98, 111, 109, 119, 100, 100] ∧
    cyrb53 [97, 57, 99, 109, 119, 102] = cyrb53 [98, 111, 109, 119, 100, 100] ∧
    PP.assets.image.load initialWorld .vobj (.vstr [97, 57, 99, 109, 119, 102]) =
      .ok ({ list_images_id := ["43330834548938"],
             warnings := 0,
             engineLoads := [.image "43330834548938" [97, 57, 99, 109, 119, 102]] },
           { id := "43330834548938", type := .image }) ∧
    PP.assets.image.load
        { list_images_id := ["43330834548938"],
          warnings := 0,
          engineLoads := [.image "43330834548938" [97, 57, 99, 109, 119, 102]] }
        .vobj (.vstr [98, 111, 109, 119, 100, 100]) =
      .ok ({ list_images_id := ["43330834548938"],
             warnings := 1,
             engineLoads := [.image "43330834548938" [97, 57, 99, 109, 119, 102]] },
           { id := "43330834548938", type := .image }) := by
  refine ⟨by decide, by decide, by decide, by decide⟩

/-- C7 as amended: for two paths whose hashes differ (rather than for all
distinct paths — the 53-bit hash has collisions), starting from a registry
containing neither hash, registering the first and then the second returns
two distinct ids, both fresh: each call appends its id and issues its
engine load. -/
theorem register_two_paths_distinct_hashes (w : JSWorld) (p1 p2 : JSStr)
    (h1 : cyrb53 p1 ∉ w.list_images_id) (h2 : cyrb53 p2 ∉ w.list_images_id)
    (hne : cyrb53 p1 ≠ cyrb53 p2) :
    PP.assets.image.load w .vobj (.vstr p1) =
      .ok ({ w with
              list_images_id := w.list_images_id ++ [cyrb53 p1],
              engineLoads := w.engineLoads ++ [.image (cyrb53 p1) p1] },
           { id := cyrb53 p1, type := .image }) ∧
    PP.assets.image.load
        { w with
            list_images_id := w.list_images_id ++ [cyrb53 p1],
            engineLoads := w.engineLoads ++ [.image (cyrb53 p1) p1] }
        .vobj (.vstr p2) =
      .ok ({ w with
              list_images_id := (w.list_images_id ++ [cyrb53 p1]) ++ [cyrb53 p2],
              engineLoads := (w.engineLoads ++ [.image (cyrb53 p1) p1]) ++
                [.image (cyrb53 p2) p2] },
           { id := cyrb53 p2, type := .image }) ∧
    cyrb53 p1 ≠ cyrb53 p2 := by
  refine ⟨image_load_fresh w p1 h1, ?_, hne⟩
  exact image_load_fresh _ p2 (by
    simp only [List.mem_append, List.mem_singleton]
    rintro (hh | hh)
    · exact h2 hh
    · exact hne hh.symm)

/-- Witness for the amended C7 at the concrete paths `"a"` and `"b"` from
the initial world. -/
theorem register_two_paths_distinct_hashes_witness :
    cyrb53 [97] ∉ initialWorld.list_images_id ∧
    cyrb53 [98] ∉ initialWorld.list_images_id ∧
    cyrb53 [97] ≠ cyrb53 [98] ∧
    (PP.assets.image.load initialWorld .vobj (.vstr [97]) =
      .ok ({ initialWorld with
              list_images_id := initialWorld.list_images_id ++ [cyrb53 [97]],
              engineLoads := initialWorld.engineLoads ++ [.image (cyrb53 [97]) [97]] },
           { id := cyrb53 [97], type := .image }) ∧
    PP.assets.image.load
        { initialWorld with
            list_images_id := initialWorld.list_images_id ++ [cyrb53 [97]],
            engineLoads := initialWorld.engineLoads ++ [.image (cyrb53 [97]) [97]] }
        .vobj (.vstr [98]) =
      .ok ({ initialWorld with
              list_images_id :=
                (initialWorld.list_images_id ++ [cyrb53 [97]]) ++ [cyrb53 [98]],
              engineLoads := (initialWorld.engineLoads ++ [.image (cyrb53 [97]) [97]]) ++
                [.image (cyrb53 [98]) [98]] },
           { id := cyrb53 [98], type := .image }) ∧
    cyrb53 [97] ≠ cyrb53 [98]) :=
  ⟨by decide, by decide, by decide,
   register_two_paths_distinct_hashes initialWorld [97] [98]
     (by decide) (by decide) (by decide)⟩

/-- C10: the empty string is accepted: `cyrb53` on the empty string is
well-defined — the per-character loop runs zero times, so the result is
the finalization of the seed-XORed constants alone — and yields a valid
53-bit decimal numeric string; `image.load` on the empty path passes the
`typeof` assertions and registers that id normally, issuing the engine
load. -/
theorem empty_string_accepted :
    cyrb53Loop [] (0xdeadbeef ^^^ u32 0) (0x41c6ce57 ^^^ u32 0) =
      (0xdeadbeef ^^^ u32 0, 0x41c6ce57 ^^^ u32 0) ∧
    cyrb53 [] = "3338908027751811" ∧
    cyrb53Val [] 0 ≤ 9007199254740991 ∧
    PP.assets.image.load initialWorld .vobj (.vstr []) =
      .ok ({ list_images_id := ["3338908027751811"],
             warnings := 0,
             engineLoads := [.image "3338908027751811" []] },
           { id := "3338908027751811", type := .image }) := by
  refine ⟨rfl, by decide, by decide, by decide⟩

end Poliphaser
